import Mathlib

/-!
Verification development for the LuaSQL Firebird driver (ls_firebird.c).

The C source is shallowly embedded: machine strings become lists of byte
values (Nat, each < 256 where it matters), engine calls become explicit
oracles or parameters, and the stateful handle hierarchy becomes records
with explicit state-passing.  Except where a definition's doc comment says
otherwise, every definition below is a direct translation of the
correspondingly named C function, with native engine calls assumed to
succeed unless the surrounding claim is about a failure path (in which case
the engine outcome is an explicit oracle parameter).
-/

namespace LsFirebird

/-! ### Firebird API constants used by the source -/

def isc_info_sql_stmt_select : Nat := 1
def isc_info_sql_stmt_insert : Nat := 2
def isc_info_sql_stmt_update : Nat := 3
def isc_info_sql_stmt_delete : Nat := 4
def isc_info_sql_stmt_ddl : Nat := 5
def isc_info_sql_stmt_exec_procedure : Nat := 8
def isc_info_sql_stmt_commit : Nat := 10

def SQL_TEXT : Nat := 452
def SQL_VARYING : Nat := 448
def SQL_BLOB : Nat := 520

def isc_dpb_version1 : Nat := 1
def isc_dpb_num_buffers : Nat := 5
def isc_dpb_user_name : Nat := 28
def isc_dpb_password : Nat := 29

/-! ### C-string helpers

Lua hands the driver NUL-terminated byte arrays (lua_tostring /
luaL_checklstring); strlen and every `while (*p != 0)` loop see only the
bytes before the first NUL. -/

/-- The bytes of `s` before the first NUL byte: what a C loop over the
pointer from lua_tostring actually visits. -/
def cstr (s : List Nat) : List Nat := s.takeWhile (fun b => b != 0)

/-- C strlen over the byte list `s` (number of bytes before the first NUL). -/
def cstrlen (s : List Nat) : Nat := (cstr s).length

/-! ### Descriptor sizing protocol (conn_prepare lines 774-793,
raw_execute lines 839-852)

An XSQLDA descriptor carries `sqln`, the declared capacity, and `sqld`,
the column count the engine reports via a describe call.  The engine is
modelled as deterministic: describing a given prepared statement always
reports the same count `N`. -/

structure XSQLDA where
  sqln : Nat
  sqld : Nat
deriving Repr, DecidableEq

/-- malloc_xsqlda: zeroed descriptor with declared capacity `len`
(`res->sqln = len`, everything else zero). -/
def malloc_xsqlda (len : Nat) : XSQLDA := { sqln := len, sqld := 0 }

/-- isc_dsql_describe / isc_dsql_describe_bind: the engine fills in the
actual column count `N` as `sqld`, leaving the declared `sqln` alone. -/
def isc_dsql_describe (N : Nat) (sqlda : XSQLDA) : XSQLDA :=
  { sqlda with sqld := N }

/-- The two-pass sizing protocol shared by conn_prepare (input descriptor)
and raw_execute (output descriptor): allocate with capacity 1, describe;
if the reported count exceeds the capacity, discard, reallocate to exactly
the reported count and describe again. -/
def size_xsqlda (N : Nat) : XSQLDA :=
  let sqlda := isc_dsql_describe N (malloc_xsqlda 1)
  if sqlda.sqln < sqlda.sqld then
    isc_dsql_describe N (malloc_xsqlda sqlda.sqld)
  else
    sqlda

/-! ### conn_escape (lines 1087-1110)

The C loop runs `while (*from != 0)`, copying each byte and doubling the
single-quote byte (39); the result is pushed with lua_pushstring, i.e. up
to its terminating NUL.  Bytes at and after an embedded NUL are dropped. -/

/-- conn_escape on the raw byte list of the Lua string argument. -/
def conn_escape : List Nat → List Nat
  | [] => []
  | b :: rest =>
      if b = 0 then []
      else if b = 39 then b :: b :: conn_escape rest
      else b :: conn_escape rest

/-- Modelled from the spec sentence: escape doubles every single-quote
character and leaves all other bytes unchanged.  Used only to compare the
source behaviour against the specified one. -/
def escape_spec (s : List Nat) : List Nat :=
  (s.map (fun b => if b = 39 then [b, b] else [b])).flatten

/-! ### Connection parameters buffer (env_connect lines 1488-1511)

env_connect writes, into conn.dpb_buffer (declared `char dpb_buffer[1024]`),
the version tag, the (num-buffers, 1, 90) triplet, the user-name tag with a
one-byte length `(char)strlen(username)` and the user-name bytes, and the
password tag likewise; `conn.dpb_length` is the number of bytes written.
No bounds check is performed against the 1024-byte buffer. -/

/-- The byte sequence env_connect writes into the dpb buffer.  The length
byte is `(char)strlen(...)`, i.e. strlen reduced mod 256; the copy loop
writes all strlen bytes. -/
def build_dpb (user pass : List Nat) : List Nat :=
  [isc_dpb_version1, isc_dpb_num_buffers, 1, 90]
    ++ ([isc_dpb_user_name, cstrlen user % 256] ++ cstr user)
    ++ ([isc_dpb_password, cstrlen pass % 256] ++ cstr pass)

/-- conn.dpb_length: the used amount of the dpb. -/
def dpb_length (user pass : List Nat) : Nat := (build_dpb user pass).length

/-! ### Handle lifecycle (env_data, conn_data, stmt_data, cur_data)

Each handle kind carries its closed flag and lock count (count of live
children); children hold the parent's lock count inline, since the C code
mutates it through a back-pointer.  Engine teardown calls are assumed to
succeed (the claims under study are about the lock/closed logic, which the
source runs only after a successful engine call). -/

structure EnvState where
  closed : Bool
  lock : Nat
deriving Repr, DecidableEq

structure ConnState where
  closed : Bool
  lock : Nat
  autocommit : Bool
  envLock : Nat
deriving Repr, DecidableEq

structure StmtState where
  closed : Bool
  lock : Nat
  hidden : Bool
  type : Nat
  connLock : Nat
deriving Repr, DecidableEq

/-- A cursor together with the engine's pending row stream for it; a row is
abstracted to a single value. -/
structure CurState where
  closed : Bool
  rows : List Nat
  stmt : StmtState
deriving Repr, DecidableEq

/-- The engine calls conn_close issues while tearing a connection down. -/
inductive TxEvent where
  | commit
  | rollback
  | detach
deriving Repr, DecidableEq

/-- Outcome of a close-family operation: the boolean the operation returns,
or the synthesized error it fails with. -/
inductive CloseResult where
  | ok (b : Bool)
  | err (msg : String)
deriving Repr, DecidableEq

/-- stmt_shut (lines 278-294), with the engine's free-statement call
succeeding: frees the statement, marks it closed and decrements the parent
connection's lock count. -/
def stmt_shut (s : StmtState) : StmtState :=
  { s with closed := true, connLock := s.connLock - 1 }

/-- cur_shut (lines 308-331), with the engine's free-statement call
succeeding: marks the cursor closed, decrements the parent statement's lock
count, and if that count reaches zero on a hidden statement, shuts the
statement as well. -/
def cur_shut (c : CurState) : CurState :=
  let st0 := { c.stmt with lock := c.stmt.lock - 1 }
  let st1 := if st0.lock = 0 ∧ st0.hidden = true then stmt_shut st0 else st0
  { c with closed := true, stmt := st1 }

/-- cur_fetch (lines 1295-1364): a fetch on a closed cursor returns no
value and changes nothing; with rows pending, the engine status is 0, the
row is decoded and returned, and an exec-procedure statement's cursor is
shut immediately; with no row left, the engine status is 100 (no more
rows), the cursor is shut and no value is returned.  Other engine failure
statuses are not modelled. -/
def cur_fetch (c : CurState) : Option Nat × CurState :=
  if c.closed = true then (none, c)
  else
    match c.rows with
    | r :: rest =>
        let c1 : CurState := { c with rows := rest }
        if c1.stmt.type = isc_info_sql_stmt_exec_procedure then
          (some r, cur_shut c1)
        else
          (some r, c1)
    | [] => (none, cur_shut c)

/-- The cursor state after n repeated fetch calls. -/
def fetch_iter (c : CurState) : Nat → CurState
  | 0 => c
  | n + 1 => (cur_fetch (fetch_iter c n)).2

/-- env_close (lines 1547-1571). -/
def env_close (e : EnvState) : CloseResult × EnvState :=
  if e.closed = true then (CloseResult.ok false, e)
  else if 0 < e.lock then (CloseResult.err "there are still open connections", e)
  else (CloseResult.ok true, { e with closed := true })

/-- conn_close (lines 1012-1052), with the engine calls succeeding; the
middle component lists the engine calls issued (commit or rollback of the
open transaction by autocommit, then the database detach). -/
def conn_close (c : ConnState) : CloseResult × List TxEvent × ConnState :=
  if c.closed = true then (CloseResult.ok false, [], c)
  else if 0 < c.lock then
    (CloseResult.err "there are still open statements/cursors", [], c)
  else
    let tx := if c.autocommit = true then TxEvent.commit else TxEvent.rollback
    (CloseResult.ok true, [tx, TxEvent.detach],
      { c with closed := true, envLock := c.envLock - 1 })

/-- stmt_close (lines 1248-1270); note the open-cursors check precedes the
already-closed check. -/
def stmt_close (s : StmtState) : CloseResult × StmtState :=
  if 0 < s.lock then (CloseResult.err "there are still open cursors", s)
  else if s.closed = false then (CloseResult.ok true, stmt_shut s)
  else (CloseResult.ok false, s)

/-- cur_close (lines 1408-1426). -/
def cur_close (c : CurState) : CloseResult × CurState :=
  if c.closed = false then (CloseResult.ok true, cur_shut c)
  else (CloseResult.ok false, c)

/-! ### Blob streamer (write_blob, lines 567-597)

The engine calls are oracles: `createOk` is whether isc_create_blob2
succeeds, `putOk k` whether the k-th isc_put_segment call succeeds.  The
trace lists the calls actually issued; the Bool is true when no call
failed.  The C function returns as soon as a call fails. -/

inductive BlobEvent where
  | create
  | put (n : Nat)
  | close
deriving Repr, DecidableEq

/-- The segment loop of write_blob: while more than 10,000 bytes remain,
put a 10,000-byte segment (returning at once on failure), then put the
remaining bytes as one final segment.  The loop carries an explicit
iteration bound (fuel) to make the recursion structural; write_blob passes
the byte count itself, which always suffices because each iteration
consumes 10,000 bytes, and when the fuel runs out len is zero and the
zero-fuel branch coincides with the loop's exit branch. -/
def put_loop (putOk : Nat → Bool) : Nat → Nat → Nat → List BlobEvent × Bool
  | 0, k, len => ([BlobEvent.put len], putOk k)
  | fuel + 1, k, len =>
      if 10000 < len then
        if putOk k then
          let r := put_loop putOk fuel (k + 1) (len - 10000)
          (BlobEvent.put 10000 :: r.1, r.2)
        else ([BlobEvent.put 10000], false)
      else ([BlobEvent.put len], putOk k)

/-- write_blob (lines 567-597): create the blob handle on the active
transaction, stream the data through put_loop, and close the handle — but,
as in the source, the close call is issued only when every earlier call
succeeded: any isc_put_segment failure returns at once without
isc_close_blob. -/
def write_blob (createOk : Bool) (putOk : Nat → Bool) (len : Nat) :
    List BlobEvent × Bool :=
  if createOk then
    let r := put_loop putOk len 0 len
    if r.2 then (BlobEvent.create :: (r.1 ++ [BlobEvent.close]), true)
    else (BlobEvent.create :: r.1, false)
  else ([BlobEvent.create], false)

/-! ### Type marshaller, parameter encoding (fill_param lines 548-565 and
the string branch of set_param lines 614-627) -/

/-- One parameter column slot (the XSQLVAR fields the claims observe). -/
structure XSQLVAR where
  sqltype : Nat
  sqllen : Nat
  sqldata : List Nat
  sqlind : Int
deriving Repr, DecidableEq

/-- The C expression (type & ~1): the type code with its low (nullable)
bit cleared. -/
def clearNullBit (t : Nat) : Nat := 2 * (t / 2)

/-- fill_param (lines 548-565), with malloc succeeding: sets the type
code, zeroes the null indicator, sets the length field to len and then
decrements it when the null-bit-cleared type is SQL_TEXT, and copies len
bytes of data into a freshly allocated buffer. -/
def fill_param (var : XSQLVAR) (ty : Nat) (data : List Nat) (len : Nat) :
    XSQLVAR :=
  let l := if clearNullBit ty = SQL_TEXT then len - 1 else len
  { var with sqltype := ty, sqlind := 0, sqllen := l, sqldata := data.take len }

/-- set_param (lines 614-627), the branch binding a string value to a
text-typed (SQL_VARYING / SQL_BLOB / SQL_TEXT) parameter column: a string
of C length (strlen) greater than 0x7FF0 is first streamed through
write_blob and the blob reference (an 8-byte ISC_QUAD) is stored with type
SQL_BLOB+1; otherwise the strlen+1 bytes of the C string (terminator
included) are stored inline with type SQL_TEXT+1.  The boolean records
whether the blob writer was used. -/
def set_param_str (var : XSQLVAR) (s : List Nat) (blobId : List Nat) :
    XSQLVAR × Bool :=
  if 0x7FF0 < cstrlen s then
    (fill_param var (SQL_BLOB + 1) blobId 8, true)
  else
    (fill_param var (SQL_TEXT + 1) (cstr s ++ [0]) (cstrlen s + 1), false)

/-! ### conn_prepare (lines 723-814)

The engine outcomes are an explicit oracle record; the result is the trace
of resource events plus the Lua-visible outcome.  PrepEv.dropStmt stands
for isc_dsql_free_statement on the allocated statement handle: the only
place the source issues it is stmt_shut, which no conn_prepare path
reaches. -/

structure PrepEngine where
  allocOk : Bool
  prepareOk : Bool
  typeOk : Bool
  stmtType : Nat
  describeOk : Bool
  nParams : Nat
  describe2Ok : Bool
  bindOk : Bool
deriving Repr, DecidableEq

inductive PrepEv where
  | allocStmt
  | dropStmt
  | allocSqlda (n : Nat)
  | freeSqlda
  | describeBind
  | parseParams
  | lockInc
deriving Repr, DecidableEq

inductive PrepResult where
  | ok
  | errUnsupported
  | errDb
deriving Repr, DecidableEq

/-- The switch at lines 760-771: statement classifications that prepare
accepts. -/
def supported_stmt_type (t : Nat) : Bool :=
  (t == isc_info_sql_stmt_select) || (t == isc_info_sql_stmt_insert) ||
  (t == isc_info_sql_stmt_update) || (t == isc_info_sql_stmt_delete) ||
  (t == isc_info_sql_stmt_ddl) || (t == isc_info_sql_stmt_exec_procedure)

/-- conn_prepare (lines 723-814) as a trace of resource events.  Every
error path calls free_stmt, which frees only the input descriptor
(freeSqlda fires just when that descriptor has been allocated — before the
describe step in_sqlda is NULL and free_stmt frees nothing); no path
releases the statement handle allocated by the opening
isc_dsql_allocate_statement call.  The connection lock is incremented
(lockInc) only on the success path. -/
def conn_prepare (e : PrepEngine) : List PrepEv × PrepResult :=
  let tr : List PrepEv := [PrepEv.allocStmt]
  if e.allocOk = false then (tr, PrepResult.errDb)
  else if e.prepareOk = false then (tr, PrepResult.errDb)
  else if e.typeOk = false then (tr, PrepResult.errDb)
  else if supported_stmt_type e.stmtType = false then
    (tr, PrepResult.errUnsupported)
  else
    let tr := tr ++ [PrepEv.allocSqlda 1, PrepEv.describeBind]
    if e.describeOk = false then (tr ++ [PrepEv.freeSqlda], PrepResult.errDb)
    else
      let tr := if 1 < e.nParams then
        tr ++ [PrepEv.freeSqlda, PrepEv.allocSqlda e.nParams, PrepEv.describeBind]
      else tr
      if 1 < e.nParams ∧ e.describe2Ok = false then
        (tr ++ [PrepEv.freeSqlda], PrepResult.errDb)
      else if 0 < e.nParams ∧ e.bindOk = false then
        (tr ++ [PrepEv.parseParams, PrepEv.freeSqlda], PrepResult.errDb)
      else
        let tr := if 0 < e.nParams then tr ++ [PrepEv.parseParams] else tr
        (tr ++ [PrepEv.lockInc], PrepResult.ok)

/-! ### Concrete sample states used for witness instantiations -/

/-- A live statement of kind select with one open cursor. -/
def sampleStmt : StmtState :=
  { closed := false, lock := 1, hidden := false,
    type := isc_info_sql_stmt_select, connLock := 1 }

/-- A live statement of kind exec-procedure with one open cursor. -/
def sampleStmtEp : StmtState :=
  { closed := false, lock := 1, hidden := false,
    type := isc_info_sql_stmt_exec_procedure, connLock := 1 }

/-- An open two-row cursor over a select statement. -/
def sampleCur : CurState :=
  { closed := false, rows := [5, 7], stmt := sampleStmt }

/-- An open one-row cursor over an exec-procedure statement. -/
def sampleCurEp : CurState :=
  { closed := false, rows := [9], stmt := sampleStmtEp }

/-- A parameter slot as describe leaves it for a varying-text column
before any value is bound. -/
def sampleVar : XSQLVAR :=
  { sqltype := SQL_VARYING, sqllen := 0, sqldata := [], sqlind := -1 }

/-- A concrete 8-byte blob reference (ISC_QUAD) as handed back by the
engine. -/
def sampleBlobId : List Nat := [1, 2, 3, 4, 5, 6, 7, 8]

/-- The engine oracle for preparing SQL classified as COMMIT (type 10)
with every native call succeeding. -/
def commitPrepEngine : PrepEngine :=
  { allocOk := true
    prepareOk := true
    typeOk := true
    stmtType := isc_info_sql_stmt_commit
    describeOk := true
    nParams := 0
    describe2Ok := true
    bindOk := true }

end LsFirebird

namespace LsFirebird

/-! ## Helper lemmas -/

theorem cstr_of_ne_zero (s : List Nat) (h : ∀ b ∈ s, b ≠ 0) : cstr s = s := by
  induction s with
  | nil => rfl
  | cons b rest ih =>
      have hb : b ≠ 0 := h b (List.mem_cons_self b rest)
      have hrest : ∀ x ∈ rest, x ≠ 0 := fun x hx => h x (List.mem_cons_of_mem b hx)
      simp only [cstr, List.takeWhile_cons]
      simp only [bne_iff_ne, ne_eq, hb, not_false_eq_true, if_true]
      simpa [cstr] using ih hrest

theorem cstrlen_of_ne_zero (s : List Nat) (h : ∀ b ∈ s, b ≠ 0) :
    cstrlen s = s.length := by
  simp [cstrlen, cstr_of_ne_zero s h]

/-! ## Claim theorems -/

/-- Claim C1, counterexample: when the engine reports zero columns (a
statement with no parameters), the protocol never resizes and the final
declared capacity is the initial guess 1, not 0. -/
theorem size_xsqlda_zero_counterexample :
    ¬ ((size_xsqlda 0).sqln = 0) := by decide

/-- Claim C1 (amended): for every reported count N at least 1, the two-pass
protocol ends with declared capacity exactly N and reported count N; for
N = 0 the capacity stays at the initial guess 1 (never under-allocated). -/
theorem size_xsqlda_capacity (N : Nat) (h : 1 ≤ N) :
    (size_xsqlda N).sqln = N ∧ (size_xsqlda N).sqld = N := by
  unfold size_xsqlda isc_dsql_describe malloc_xsqlda
  rcases Nat.lt_or_ge 1 N with hlt | hge
  · simp [hlt]
  · have hN : N = 1 := Nat.le_antisymm hge h
    subst hN
    simp

/-- Claim C1 witness: the amended statement at the concrete count 3. -/
theorem size_xsqlda_capacity_witness :
    (size_xsqlda 3).sqln = 3 ∧ (size_xsqlda 3).sqld = 3 :=
  size_xsqlda_capacity 3 (by decide)

/-- Claim C4, counterexample: on input bytes "a\0b" the source drops the
NUL and everything after it, so escape does not leave every non-quote byte
unchanged. -/
theorem conn_escape_nul_counterexample :
    ¬ (conn_escape [97, 0, 98] = escape_spec [97, 0, 98]) := by decide

/-- Claim C4 (amended): for every NUL-free input string, escape returns the
string with every single-quote byte doubled and every other byte unchanged
(bytes from the first embedded NUL on are dropped, since the C copy loop is
NUL-terminated); in particular escape of "a'b" is "a''b" and escape of the
empty string is empty. -/
theorem conn_escape_doubles_quotes (s : List Nat) (h : ∀ b ∈ s, b ≠ 0) :
    conn_escape s = escape_spec s ∧
    conn_escape [97, 39, 98] = [97, 39, 39, 98] ∧
    conn_escape [] = [] := by
  refine ⟨?_, by decide, rfl⟩
  induction s with
  | nil => rfl
  | cons b rest ih =>
      have hb : b ≠ 0 := h b (List.mem_cons_self b rest)
      have hrest : ∀ x ∈ rest, x ≠ 0 := fun x hx => h x (List.mem_cons_of_mem b hx)
      have ih2 := ih hrest
      by_cases hq : b = 39
      · subst hq
        simp only [conn_escape, if_neg hb, if_pos rfl, escape_spec, List.map_cons,
          List.flatten_cons, if_pos rfl]
        simpa [escape_spec] using ih2
      · simp only [conn_escape, if_neg hb, if_neg hq, escape_spec, List.map_cons,
          List.flatten_cons]
        simpa [escape_spec, hq] using ih2

/-- Claim C4 witness: the amended statement at the concrete input "a'b". -/
theorem conn_escape_doubles_quotes_witness :
    conn_escape [97, 39, 98] = escape_spec [97, 39, 98] ∧
    conn_escape [97, 39, 98] = [97, 39, 39, 98] ∧
    conn_escape [] = [] :=
  conn_escape_doubles_quotes [97, 39, 98] (by decide)

/-- Claim C9, counterexample: a 1017-byte user name (no password) yields a
used dpb length of 1025 bytes, exceeding the 1024-byte buffer — the source
performs no bounds check, so the claimed cap does not hold. -/
theorem build_dpb_overflow_counterexample :
    ¬ (dpb_length (List.replicate 1017 97) [] ≤ 1024) := by
  have h : cstr (List.replicate 1017 97) = List.replicate 1017 97 :=
    cstr_of_ne_zero _ (by
      intro b hb
      have := List.eq_of_mem_replicate hb
      omega)
  have hl : cstrlen (List.replicate 1017 97) = 1017 := by
    unfold cstrlen
    rw [h, List.length_replicate]
  have hnil : cstr ([] : List Nat) = [] := rfl
  have hlnil : cstrlen ([] : List Nat) = 0 := rfl
  simp only [dpb_length, build_dpb, h, hl, hnil, hlnil, List.length_append,
    List.length_cons, List.length_nil, List.length_replicate]
  omega

/-- Claim C9 (amended): for NUL-free user name and password, the dpb is
exactly the version tag, the (num-buffers, 1, 90) triplet, the user-name
tag with length byte strlen mod 256 and the user-name bytes, and the
password tag likewise, so its used length is 8 + the user-name length + the
password length; this fits the 1024-byte buffer only when the two lengths
sum to at most 1016 — the code itself never enforces the cap. -/
theorem build_dpb_layout (u p : List Nat)
    (hu : ∀ b ∈ u, b ≠ 0) (hp : ∀ b ∈ p, b ≠ 0) :
    build_dpb u p =
      [1, 5, 1, 90] ++ ([28, u.length % 256] ++ u) ++ ([29, p.length % 256] ++ p) ∧
    dpb_length u p = 8 + u.length + p.length ∧
    (u.length + p.length ≤ 1016 → dpb_length u p ≤ 1024) := by
  have hcu := cstr_of_ne_zero u hu
  have hcp := cstr_of_ne_zero p hp
  have hlu := cstrlen_of_ne_zero u hu
  have hlp := cstrlen_of_ne_zero p hp
  refine ⟨?_, ?_, ?_⟩
  · simp [build_dpb, hcu, hcp, hlu, hlp, isc_dpb_version1, isc_dpb_num_buffers,
      isc_dpb_user_name, isc_dpb_password]
  · simp [dpb_length, build_dpb, hcu, hcp]
    omega
  · intro hle
    simp [dpb_length, build_dpb, hcu, hcp]
    omega

/-- Claim C9 witness: the amended statement at user name "u" (byte 117) and
password "pw" (bytes 112, 119). -/
theorem build_dpb_layout_witness :
    build_dpb [117] [112, 119] =
      [1, 5, 1, 90] ++ ([28, 1] ++ [117]) ++ ([29, 2] ++ [112, 119]) ∧
    dpb_length [117] [112, 119] = 8 + 1 + 2 ∧
    (1 + 2 ≤ 1016 → dpb_length [117] [112, 119] ≤ 1024) := by
  have h := build_dpb_layout [117] [112, 119] (by decide) (by decide)
  simpa using h

/-! ## Fetch protocol lemmas -/

theorem cur_fetch_of_closed (c : CurState) (h : c.closed = true) :
    cur_fetch c = (none, c) := by
  simp [cur_fetch, h]

theorem cur_fetch_of_row (c : CurState) (r : Nat) (rest : List Nat)
    (h : c.closed = false) (hr : c.rows = r :: rest)
    (ht : c.stmt.type ≠ isc_info_sql_stmt_exec_procedure) :
    cur_fetch c = (some r, { c with rows := rest }) := by
  simp [cur_fetch, h, hr, ht]

theorem cur_fetch_of_row_ep (c : CurState) (r : Nat) (rest : List Nat)
    (h : c.closed = false) (hr : c.rows = r :: rest)
    (ht : c.stmt.type = isc_info_sql_stmt_exec_procedure) :
    cur_fetch c = (some r, cur_shut { c with rows := rest }) := by
  simp [cur_fetch, h, hr, ht]

theorem cur_fetch_of_empty (c : CurState) (h : c.closed = false)
    (hr : c.rows = []) :
    cur_fetch c = (none, cur_shut c) := by
  simp [cur_fetch, h, hr]

theorem cur_shut_closed (c : CurState) : (cur_shut c).closed = true := rfl

theorem cur_shut_stmt_lock (c : CurState) :
    (cur_shut c).stmt.lock = c.stmt.lock - 1 := by
  by_cases hif : c.stmt.lock - 1 = 0 ∧ c.stmt.hidden = true <;>
    simp [cur_shut, stmt_shut, hif]

theorem fetch_iter_of_closed (c : CurState) (h : c.closed = true) (n : Nat) :
    fetch_iter c n = c := by
  induction n with
  | zero => rfl
  | succ n ih => rw [fetch_iter, ih, cur_fetch_of_closed c h]

theorem fetch_iter_add (c : CurState) (a b : Nat) :
    fetch_iter c (a + b) = fetch_iter (fetch_iter c a) b := by
  induction b with
  | zero => rfl
  | succ n ih => rw [Nat.add_succ, fetch_iter, ih, fetch_iter]

theorem fetch_iter_drop (c : CurState) (hopen : c.closed = false)
    (ht : c.stmt.type ≠ isc_info_sql_stmt_exec_procedure) :
    ∀ j, j ≤ c.rows.length → fetch_iter c j = { c with rows := c.rows.drop j } := by
  intro j
  induction j with
  | zero => intro _; rfl
  | succ n ih =>
      intro hj
      have hn : n ≤ c.rows.length := Nat.le_of_succ_le hj
      have hlt : n < c.rows.length := hj
      rw [fetch_iter, ih hn,
        cur_fetch_of_row { c with rows := c.rows.drop n } (c.rows[n])
          (c.rows.drop (n + 1)) hopen (List.drop_eq_getElem_cons hlt) ht]

/-- Claim C2: fetching repeatedly from an open cursor over a K-row result
yields exactly K row-producing fetches, then one fetch that returns no
value (not an error) and closes the cursor, after which every further fetch
returns no value and leaves the state unchanged.  The hypothesis on
exec-procedure statements records the engine guarantee that such statements
produce at most one row (the source special-cases them for that reason). -/
theorem cursor_exhaustion (c : CurState) (K : Nat)
    (hK : c.rows.length = K) (hopen : c.closed = false)
    (hep : c.stmt.type = isc_info_sql_stmt_exec_procedure → K ≤ 1) :
    (∀ j, j < K → (cur_fetch (fetch_iter c j)).1 = c.rows[j]?) ∧
    (cur_fetch (fetch_iter c K)).1 = none ∧
    (fetch_iter c (K + 1)).closed = true ∧
    (∀ m, K + 1 ≤ m →
      fetch_iter c m = fetch_iter c (K + 1) ∧
      (cur_fetch (fetch_iter c m)).1 = none) := by
  have main : (∀ j, j < K → (cur_fetch (fetch_iter c j)).1 = c.rows[j]?) ∧
      (cur_fetch (fetch_iter c K)).1 = none ∧
      (fetch_iter c (K + 1)).closed = true := by
    by_cases htype : c.stmt.type = isc_info_sql_stmt_exec_procedure
    · have hK1 : K ≤ 1 := hep htype
      cases hrows : c.rows with
      | nil =>
          have hK0 : K = 0 := by rw [← hK, hrows]; rfl
          subst hK0
          have e0 : fetch_iter c 0 = c := rfl
          have hf : cur_fetch c = (none, cur_shut c) :=
            cur_fetch_of_empty c hopen hrows
          have e1 : fetch_iter c (0 + 1) = cur_shut c := by
            rw [show fetch_iter c (0 + 1) = (cur_fetch (fetch_iter c 0)).2 from rfl,
              e0, hf]
          exact ⟨fun j hj => absurd hj (Nat.not_lt_zero j),
            by rw [e0, hf], by rw [e1]; exact cur_shut_closed c⟩
      | cons r rest =>
          have hlen : rest.length + 1 = K := by rw [← hK, hrows]; rfl
          have hrest : rest = [] :=
            List.length_eq_zero.mp (by omega)
          subst hrest
          have hK1e : K = 1 := by omega
          subst hK1e
          have e0 : fetch_iter c 0 = c := rfl
          have hf : cur_fetch c = (some r, cur_shut { c with rows := [] }) :=
            cur_fetch_of_row_ep c r [] hopen hrows htype
          have e1 : fetch_iter c 1 = cur_shut { c with rows := [] } := by
            rw [show fetch_iter c 1 = (cur_fetch (fetch_iter c 0)).2 from rfl, e0, hf]
          have hcl : (cur_shut { c with rows := [] }).closed = true :=
            cur_shut_closed _
          have e2 : fetch_iter c (1 + 1) = cur_shut { c with rows := [] } := by
            rw [show fetch_iter c (1 + 1) = (cur_fetch (fetch_iter c 1)).2 from rfl,
              e1, cur_fetch_of_closed _ hcl]
          refine ⟨?_, ?_, ?_⟩
          · intro j hj
            have hj0 : j = 0 := by omega
            subst hj0
            rw [e0, hf]
            rfl
          · rw [e1, cur_fetch_of_closed _ hcl]
          · rw [e2]; exact hcl
    · have hKle : K ≤ c.rows.length := le_of_eq hK.symm
      have hnil : c.rows.drop K = [] := by
        rw [← hK]; exact List.drop_length c.rows
      have edropK : fetch_iter c K = { c with rows := c.rows.drop K } :=
        fetch_iter_drop c hopen htype K hKle
      have hfK : cur_fetch { c with rows := c.rows.drop K } =
          (none, cur_shut { c with rows := c.rows.drop K }) :=
        cur_fetch_of_empty _ hopen hnil
      refine ⟨?_, ?_, ?_⟩
      · intro j hj
        have hjlt : j < c.rows.length := by omega
        have ej : fetch_iter c j = { c with rows := c.rows.drop j } :=
          fetch_iter_drop c hopen htype j (Nat.le_of_lt hjlt)
        rw [ej, cur_fetch_of_row { c with rows := c.rows.drop j } (c.rows[j])
          (c.rows.drop (j + 1)) hopen (List.drop_eq_getElem_cons hjlt) htype]
        exact (List.getElem?_eq_getElem hjlt).symm
      · rw [edropK, hfK]
      · rw [show fetch_iter c (K + 1) = (cur_fetch (fetch_iter c K)).2 from rfl,
          edropK, hfK]
        exact cur_shut_closed _
  obtain ⟨h1, h2, hclosed⟩ := main
  have stable : ∀ m, K + 1 ≤ m → fetch_iter c m = fetch_iter c (K + 1) := by
    intro m hm
    calc fetch_iter c m
        = fetch_iter c ((K + 1) + (m - (K + 1))) := by
          rw [Nat.add_sub_cancel' hm]
      _ = fetch_iter (fetch_iter c (K + 1)) (m - (K + 1)) :=
          fetch_iter_add c (K + 1) (m - (K + 1))
      _ = fetch_iter c (K + 1) :=
          fetch_iter_of_closed _ hclosed _
  refine ⟨h1, h2, hclosed, fun m hm => ⟨stable m hm, ?_⟩⟩
  rw [stable m hm, cur_fetch_of_closed _ hclosed]

/-- Claim C2 witness: the exhaustion trace of the concrete two-row
cursor. -/
theorem cursor_exhaustion_witness :
    (cur_fetch (fetch_iter sampleCur 0)).1 = some 5 ∧
    (cur_fetch (fetch_iter sampleCur 1)).1 = some 7 ∧
    (cur_fetch (fetch_iter sampleCur 2)).1 = none ∧
    (fetch_iter sampleCur 3).closed = true ∧
    fetch_iter sampleCur 4 = fetch_iter sampleCur 3 := by
  have h := cursor_exhaustion sampleCur 2 rfl rfl (by decide)
  refine ⟨?_, ?_, h.2.1, h.2.2.1, (h.2.2.2 4 (by decide)).1⟩
  · simpa [sampleCur] using h.1 0 (by decide)
  · simpa [sampleCur] using h.1 1 (by decide)

/-- Claim C3: closing a connection with at least one live statement fails
with the still-open-statements error and leaves the connection unchanged;
closing a connection with no live statement succeeds, commits the open
transaction when autocommit is set and rolls it back otherwise, then
detaches the database and marks the connection closed. -/
theorem conn_close_lock_invariant (s t : ConnState)
    (hs1 : s.closed = false) (hs2 : 1 ≤ s.lock)
    (ht1 : t.closed = false) (ht2 : t.lock = 0) :
    conn_close s =
      (CloseResult.err "there are still open statements/cursors", [], s) ∧
    conn_close t =
      (CloseResult.ok true,
       [(if t.autocommit = true then TxEvent.commit else TxEvent.rollback),
        TxEvent.detach],
       { t with closed := true, envLock := t.envLock - 1 }) := by
  have hs2a : 0 < s.lock := hs2
  constructor
  · simp [conn_close, hs1, hs2a]
  · simp [conn_close, ht1, ht2]

/-- Claim C3 witness: a locked connection and an unlocked non-autocommit
connection, both with one live parent-environment child count. -/
theorem conn_close_lock_invariant_witness :
    conn_close { closed := false, lock := 1, autocommit := true, envLock := 1 } =
      (CloseResult.err "there are still open statements/cursors", [],
       { closed := false, lock := 1, autocommit := true, envLock := 1 }) ∧
    conn_close { closed := false, lock := 0, autocommit := false, envLock := 1 } =
      (CloseResult.ok true, [TxEvent.rollback, TxEvent.detach],
       { closed := true, lock := 0, autocommit := false, envLock := 0 }) := by
  have h := conn_close_lock_invariant
    { closed := false, lock := 1, autocommit := true, envLock := 1 }
    { closed := false, lock := 0, autocommit := false, envLock := 1 }
    rfl (by decide) rfl rfl
  simpa using h

/-- Claim C8: a successful fetch on an exec-procedure cursor closes the
cursor immediately and decrements the parent statement's lock count, while
a successful fetch on any other statement kind leaves the cursor open with
the lock count untouched. -/
theorem exec_procedure_autoclose (c d : CurState) (r s : Nat)
    (rs ss : List Nat)
    (hc : c.closed = false) (hcr : c.rows = r :: rs)
    (hct : c.stmt.type = isc_info_sql_stmt_exec_procedure)
    (hd : d.closed = false) (hdr : d.rows = s :: ss)
    (hdt : d.stmt.type ≠ isc_info_sql_stmt_exec_procedure) :
    (cur_fetch c).1 = some r ∧
    (cur_fetch c).2.closed = true ∧
    (cur_fetch c).2.stmt.lock = c.stmt.lock - 1 ∧
    (cur_fetch d).1 = some s ∧
    (cur_fetch d).2.closed = false ∧
    (cur_fetch d).2.stmt.lock = d.stmt.lock := by
  rw [cur_fetch_of_row_ep c r rs hc hcr hct, cur_fetch_of_row d s ss hd hdr hdt]
  exact ⟨rfl, cur_shut_closed _, cur_shut_stmt_lock _, rfl, hd, rfl⟩

/-- Claim C8 witness: the one-row exec-procedure cursor closes on its first
fetch while the select cursor stays open. -/
theorem exec_procedure_autoclose_witness :
    (cur_fetch sampleCurEp).1 = some 9 ∧
    (cur_fetch sampleCurEp).2.closed = true ∧
    (cur_fetch sampleCurEp).2.stmt.lock = sampleCurEp.stmt.lock - 1 ∧
    (cur_fetch sampleCur).1 = some 5 ∧
    (cur_fetch sampleCur).2.closed = false ∧
    (cur_fetch sampleCur).2.stmt.lock = sampleCur.stmt.lock :=
  exec_procedure_autoclose sampleCurEp sampleCur 9 5 [] [7]
    rfl rfl rfl rfl rfl (by decide)

/-- Claim C10: for each of the four handle kinds, calling close on an
already-closed handle (with no live children) returns the boolean false,
is not an error, and leaves the handle and every parent lock count
unchanged. -/
theorem close_idempotent_when_closed
    (e : EnvState) (c : ConnState) (s : StmtState) (u : CurState)
    (he : e.closed = true) (hc : c.closed = true)
    (hs : s.closed = true) (hsl : s.lock = 0) (hu : u.closed = true) :
    env_close e = (CloseResult.ok false, e) ∧
    conn_close c = (CloseResult.ok false, [], c) ∧
    stmt_close s = (CloseResult.ok false, s) ∧
    cur_close u = (CloseResult.ok false, u) := by
  refine ⟨?_, ?_, ?_, ?_⟩
  · simp [env_close, he]
  · simp [conn_close, hc]
  · simp [stmt_close, hs, hsl]
  · simp [cur_close, hu]

/-- Claim C10 witness: closed handles of all four kinds. -/
theorem close_idempotent_when_closed_witness :
    env_close { closed := true, lock := 0 } =
      (CloseResult.ok false, { closed := true, lock := 0 }) ∧
    conn_close { closed := true, lock := 0, autocommit := false, envLock := 0 } =
      (CloseResult.ok false, [],
       { closed := true, lock := 0, autocommit := false, envLock := 0 }) ∧
    stmt_close { closed := true, lock := 0, hidden := false, type := 1, connLock := 0 } =
      (CloseResult.ok false,
       { closed := true, lock := 0, hidden := false, type := 1, connLock := 0 }) ∧
    cur_close { closed := true, rows := [],
                stmt := { closed := true, lock := 0, hidden := false,
                          type := 1, connLock := 0 } } =
      (CloseResult.ok false,
       { closed := true, rows := [],
         stmt := { closed := true, lock := 0, hidden := false,
                   type := 1, connLock := 0 } }) :=
  close_idempotent_when_closed
    { closed := true, lock := 0 }
    { closed := true, lock := 0, autocommit := false, envLock := 0 }
    { closed := true, lock := 0, hidden := false, type := 1, connLock := 0 }
    { closed := true, rows := [],
      stmt := { closed := true, lock := 0, hidden := false,
                type := 1, connLock := 0 } }
    rfl rfl rfl rfl rfl

/-- Claim C5, failing input: a 5-byte blob write where isc_create_blob2
succeeds and the single isc_put_segment call fails.  The source returns at
once, so the trace holds the create and the failed put but no close: the
successfully opened handle is never closed on this error path, contrary to
the claim (and to the documented design). -/
theorem write_blob_leak_on_put_failure :
    write_blob true (fun _ => false) 5 =
      ([BlobEvent.create, BlobEvent.put 5], false) ∧
    BlobEvent.close ∉ (write_blob true (fun _ => false) 5).1 := by decide

/-- Claim C6, counterexample: binding the two-byte string "ab" leaves the
slot's length field at strlen = 2, not strlen+1 = 3 (fill_param receives
strlen+1 but decrements it for the SQL_TEXT type). -/
theorem set_param_sqllen_counterexample :
    ¬ ((set_param_str sampleVar [97, 98] sampleBlobId).1.sqllen
        = cstrlen [97, 98] + 1) := by decide

/-- Claim C6 (amended): a string bound to a text-typed parameter column is
encoded inline as SQL_TEXT exactly when its C length (strlen) is at most
the 32,752-byte threshold — all strlen+1 bytes, terminator included, are
copied, and the slot's length field ends at strlen, because fill_param
receives strlen+1 and decrements it for the text type; a string strictly
longer than the threshold is instead streamed through the blob writer and
the 8-byte blob reference is stored in the slot with type SQL_BLOB. -/
theorem set_param_threshold (var : XSQLVAR) (s blobId : List Nat) :
    (cstrlen s ≤ 32752 →
      set_param_str var s blobId =
        ({ var with
            sqltype := SQL_TEXT + 1
            sqlind := 0
            sqllen := cstrlen s
            sqldata := cstr s ++ [0] }, false)) ∧
    (32752 < cstrlen s →
      set_param_str var s blobId =
        ({ var with
            sqltype := SQL_BLOB + 1
            sqlind := 0
            sqllen := 8
            sqldata := blobId.take 8 }, true)) := by
  have htext : clearNullBit (SQL_TEXT + 1) = SQL_TEXT := rfl
  have hblob : clearNullBit (SQL_BLOB + 1) ≠ SQL_TEXT := by decide
  have htake : (cstr s ++ [0]).take (cstrlen s + 1) = cstr s ++ [0] := by
    have hlen : (cstr s ++ [0]).length = cstrlen s + 1 := by simp [cstrlen]
    rw [← hlen, List.take_length]
  constructor
  · intro h
    have hn : ¬ (0x7FF0 < cstrlen s) := by omega
    simp only [set_param_str, hn, if_false, fill_param, htext, if_true, htake]
    simp
  · intro h
    have hy : 0x7FF0 < cstrlen s := by omega
    simp only [set_param_str, hy, if_true, fill_param, hblob, if_false]

/-- Claim C6 witness: the amended statement's inline branch at the
two-byte string "ab". -/
theorem set_param_threshold_witness :
    set_param_str sampleVar [97, 98] sampleBlobId =
      ({ sqltype := SQL_TEXT + 1
         sqllen := 2
         sqldata := [97, 98, 0]
         sqlind := 0 }, false) := by
  have h := (set_param_threshold sampleVar [97, 98] sampleBlobId).1 (by decide)
  simpa [sampleVar, cstr, cstrlen] using h

/-- Claim C7, failing input: preparing SQL the engine classifies as type
10 (COMMIT — outside the supported set) with every engine call succeeding.
The outcome is the unsupported-statement error with the connection lock
untouched (no lockInc event), as the claim says, but the trace shows the
allocated native statement handle is never released (no dropStmt event
follows the allocStmt event), contradicting the no-resource-retained part
of the claim. -/
theorem conn_prepare_leaks_handle :
    conn_prepare commitPrepEngine =
      ([PrepEv.allocStmt], PrepResult.errUnsupported) ∧
    PrepEv.allocStmt ∈ (conn_prepare commitPrepEngine).1 ∧
    PrepEv.dropStmt ∉ (conn_prepare commitPrepEngine).1 ∧
    PrepEv.lockInc ∉ (conn_prepare commitPrepEngine).1 := by decide

end LsFirebird
